import Mathlib

/-!
Verification of the sub-window-manager core of druid-widget-nursery
(src/sub_window_manager/: commands.rs, manager.rs, host.rs, proxy.rs,
dialog.rs, window_decoration.rs) against its natural-language specification.

The embedding keeps the source structure: widget identifiers are naturals,
points use integer coordinates (the cited scenarios use integral values, on
which f64 addition and subtraction are exact), `Box<dyn Any>` payloads are
modelled as a dependent pair over a closed universe of data types with an
explicit downcast, and druid's `SingleUse` cell is an `Option` threaded
explicitly through every delivery.  The `Stack` widget and `window_config.rs`
are part of this repository but are not present under src/; their operations
are modelled from the spec and marked as such.
-/

namespace SWM

/-- druid `WidgetId`: process-wide unique opaque identifier, modelled as a
natural number. -/
abbrev WidgetId := Nat

/-- druid `Point` with integer coordinates. -/
structure Point where
  x : Int
  y : Int
deriving DecidableEq

/-- Modelled from the spec: `StackChildPosition` of the Stack widget (not
under src/) — a fixed position with four optional offsets. -/
structure StackChildPosition where
  left : Option Int
  top : Option Int
  right : Option Int
  bottom : Option Int
deriving DecidableEq

/-- `StackChildPosition::new()`: all offsets unset. -/
def StackChildPosition.new : StackChildPosition := ⟨none, none, none, none⟩

/-- Closed universe of shared-data types, standing for the Rust `dyn Any`
payload types that occur at runtime. -/
inductive Ty
  | tNat
  | tBool
deriving DecidableEq

/-- Interpretation of the universe. -/
@[reducible] def Ty.interp : Ty → Type
  | .tNat => Nat
  | .tBool => Bool

instance Ty.deqInterp (t : Ty) : DecidableEq t.interp :=
  match t with
  | .tNat => inferInstanceAs (DecidableEq Nat)
  | .tBool => inferInstanceAs (DecidableEq Bool)

/-- `Box<dyn Any>`: a value together with its runtime type tag. -/
def AnyBox := Σ t : Ty, t.interp

instance : DecidableEq AnyBox := inferInstanceAs (DecidableEq (Σ t : Ty, t.interp))

/-- `downcast_ref::<U>()` on a boxed `dyn Any` value. -/
def AnyBox.downcast (b : AnyBox) (t : Ty) : Option t.interp :=
  if h : b.1 = t then some (h ▸ b.2) else none

/-- `SwmSubWindowDesc` (commands.rs): the boxed sub-window root widget is
represented by its `WidgetId` (the host id), which is what the Stack uses to
address the child afterwards. -/
structure SwmSubWindowDesc where
  sub_window_root : WidgetId
  position : StackChildPosition
  modal : Bool
deriving DecidableEq

/-- `SwmSubWindowUpdate` (commands.rs): optional data clone and optional env
clone (the env is opaque here, modelled as a natural number). -/
structure SwmSubWindowUpdate where
  data : Option AnyBox
  env : Option Nat
deriving DecidableEq

/-- druid command `Target`: a specific widget or `Target::Auto`. -/
inductive Target
  | widget (id : WidgetId)
  | auto
deriving DecidableEq

/-- The protocol commands (commands.rs).  For the single-use selectors the
constructor carries the current contents of the shared `SingleUse` cell:
`some payload` before the take, `none` afterwards. -/
inductive Cmd
  | addWindow (cell : Option SwmSubWindowDesc) (target : WidgetId)
  | dragWindow (cell : Option (WidgetId × Point)) (target : WidgetId)
  | closeWindow (cell : Option (Option WidgetId)) (target : Target)
  | windowToTop (id : WidgetId) (target : WidgetId)
  | hostToProxy (box : AnyBox) (target : WidgetId)
  | proxyToHost (upd : SwmSubWindowUpdate) (target : WidgetId)
  | connectHost (id : WidgetId) (target : WidgetId)
  | disconnectHost (id : WidgetId) (target : WidgetId)
deriving DecidableEq

/-- druid events, restricted to what the sub-window-manager code inspects:
commands, notifications, and the mouse events used by the decoration.  Mouse
events carry the widget-local position and the window-absolute position. -/
inductive Event
  | command (c : Cmd)
  | notification (c : Cmd)
  | mouseDown (pos windowPos : Point)
  | mouseUp (pos windowPos : Point)
  | mouseMove (pos windowPos : Point)
  | other
deriving DecidableEq

/-- One entry of the Manager's z-ordered stack: the host widget id, its
position and modality.  Sequence order is z-order, last entry frontmost. -/
structure StackEntry where
  widget : WidgetId
  position : StackChildPosition
  modal : Bool
deriving DecidableEq

/-- Modelled from the spec: `Stack::add_positioned_child` (Stack widget, not
under src/) appends the new entry at the end of the sequence, i.e. the front
of the z-order. -/
def Stack.add_positioned_child (stack : List StackEntry) (e : StackEntry) :
    List StackEntry :=
  stack ++ [e]

/-- Modelled from the spec: `Stack::move_child` (Stack widget, not under
src/) updates the matching entry's position in place; no reordering. -/
def Stack.move_child (stack : List StackEntry) (id : WidgetId)
    (pos : StackChildPosition) : List StackEntry :=
  stack.map fun e => if e.widget = id then { e with position := pos } else e

/-- Modelled from the spec: `Stack::remove_child` (Stack widget, not under
src/) removes the matching entry; a missing id is a silent no-op. -/
def Stack.remove_child (stack : List StackEntry) (id : WidgetId) :
    List StackEntry :=
  stack.filter fun e => e.widget ≠ id

/-- Modelled from the spec: `Stack::child_to_front` (Stack widget, not under
src/) moves the matching entry to the end of the sequence (front of the
z-order), keeping the relative order of the remaining entries. -/
def Stack.child_to_front (stack : List StackEntry) (id : WidgetId) :
    List StackEntry :=
  (stack.filter fun e => e.widget ≠ id) ++ (stack.filter fun e => e.widget = id)

/-- `SubWindowManager<T>` state (manager.rs): its own id, the id of the
self-hosted root entry, the stack, and the shared application data `T` that
the framework hands to `event` by mutable reference. -/
structure ManagerState (t : Ty) where
  id : WidgetId
  root_host_id : WidgetId
  stack : List StackEntry
  data : t.interp

/-- Result of one `SubWindowManager::event` dispatch: the new manager state,
the event with its single-use cell possibly consumed, and whether
`ctx.set_handled()` was called. -/
structure ManagerStep (t : Ty) where
  state : ManagerState t
  eventAfter : Event
  handled : Bool

/-- `SubWindowManager::event` (manager.rs lines 107-160).  `origin` is
`ctx.to_window(Point::new(0., 0.))`, the stack's screen-space origin.
Unmatched events are forwarded to the stack for ordinary traversal, which
does not touch the manager's own state. -/
def SubWindowManager.event (t : Ty) (m : ManagerState t) (origin : Point)
    (ev : Event) : ManagerStep t :=
  match ev with
  | .command (.addWindow cell tgt) =>
    match cell with
    | some desc =>
      let entry : StackEntry := ⟨desc.sub_window_root, desc.position, desc.modal⟩
      ⟨{ m with stack := Stack.add_positioned_child m.stack entry },
        .command (.addWindow none tgt), true⟩
    | none => ⟨m, ev, false⟩
  | .command (.dragWindow cell tgt) =>
    match cell with
    | some (host_id, move_to) =>
      let position : StackChildPosition :=
        ⟨some (move_to.x - origin.x), some (move_to.y - origin.y), none, none⟩
      ⟨{ m with stack := Stack.move_child m.stack host_id position },
        .command (.dragWindow none tgt), true⟩
    | none => ⟨m, ev, false⟩
  | .command (.closeWindow cell tgt) =>
    match cell with
    | some (some host_id) =>
      ⟨{ m with stack := Stack.remove_child m.stack host_id },
        .command (.closeWindow none tgt), true⟩
    | some none => ⟨m, .command (.closeWindow none tgt), false⟩
    | none => ⟨m, ev, false⟩
  | .command (.windowToTop host_id _) =>
    ⟨{ m with stack := Stack.child_to_front m.stack host_id }, ev, true⟩
  | .command (.hostToProxy box _) =>
    match box.downcast t with
    | some v => ⟨{ m with data := v }, ev, true⟩
    | none => ⟨m, ev, true⟩
  | _ => ⟨m, ev, false⟩

/-- `SubWindowHost<U, W>` state (host.rs): manager id, own id, owning proxy
id, and the private copy of the shared data. -/
structure HostState (t : Ty) where
  manager : WidgetId
  id : WidgetId
  proxy_id : WidgetId
  data : t.interp

/-- Result of one `SubWindowHost::event` dispatch: new host state, the event
with its single-use cell possibly consumed, the commands submitted (in
submission order), whether `ctx.set_handled()` was called, and whether the
`warn!` diagnostic was emitted. -/
structure HostStep (t : Ty) where
  state : HostState t
  eventAfter : Event
  submitted : List Cmd
  handled : Bool
  warned : Bool

/-- `SubWindowHost::event` (host.rs lines 55-105).  `child` is the effect of
dispatching the event to the wrapped subtree: it maps the private data to the
new private data together with the commands the subtree submits.  A
`SWM_CLOSE_WINDOW` notification whose payload was already taken falls
through to the ordinary dispatch, exactly as in the source. -/
def SubWindowHost.event (t : Ty) (h : HostState t)
    (child : t.interp → t.interp × List Cmd) (ev : Event) : HostStep t :=
  match ev with
  | .notification (.closeWindow (some _) tgt) =>
    ⟨h, .notification (.closeWindow none tgt),
      [ .closeWindow (some (some h.id)) (.widget h.manager),
        .disconnectHost h.id h.proxy_id ], true, false⟩
  | .command (.proxyToHost upd _) =>
    match upd.data with
    | some box =>
      match box.downcast t with
      | some v => ⟨{ h with data := v }, ev, [], true, false⟩
      | none => ⟨h, ev, [], true, true⟩
    | none => ⟨h, ev, [], true, false⟩
  | _ =>
    let old := h.data
    let r := child h.data
    ⟨{ h with data := r.1 }, ev,
      r.2 ++ (if old = r.1 then []
              else [ .hostToProxy ⟨t, r.1⟩ h.proxy_id ]),
      false, false⟩

/-- `submit_host_update` (commands.rs lines 57-78): builds the
`SWM_PROXY_TO_HOST` command, cloning the data only when it changed and the
env only when `ctx.env_changed()` held. -/
def submit_host_update (t : Ty) (data : t.interp) (data_changed : Bool)
    (env : Nat) (env_changed : Bool) (host_id : WidgetId) : Cmd :=
  .proxyToHost
    ⟨if data_changed then some ⟨t, data⟩ else none,
     if env_changed then some env else none⟩
    host_id

/-- `add_window` (manager.rs lines 44-74): builds the host wrapping the
decorated widget under a fresh `host_id` and submits the `SWM_ADD_WINDOW`
command to the manager followed by `SWM_CONNECT_HOST` to the proxy.  The
source creates `host_id` with `WidgetId::next()`; here it is a parameter.
dialog.rs uses the call's value as the created host id, so the id is
returned alongside the submitted commands. -/
def add_window (manager : WidgetId) (proxy_id : WidgetId) (host_id : WidgetId)
    (position : StackChildPosition) (modal : Bool) : List Cmd × WidgetId :=
  ([ .addWindow (some ⟨host_id, position, modal⟩) manager,
     .connectHost host_id proxy_id ], host_id)

/-- `SubWindowLauncher::close_window` (proxy.rs lines 59-66): the caller does
not know its own window id, so a `SWM_CLOSE_WINDOW` notification with an
empty id is sent to `Target::Auto`, to be resolved by the nearest host. -/
def SubWindowLauncher.close_window : Cmd :=
  .closeWindow (some none) .auto

/-- `SubWindowProxy<T>` state (proxy.rs): manager id, own id, and the set of
currently-connected sub-window host ids. -/
structure ProxyState where
  manager : WidgetId
  id : WidgetId
  sub_window_hosts : List WidgetId
deriving DecidableEq

/-- Result of one `SubWindowProxy::event` dispatch: new proxy state, the
shared data (handed in by mutable reference by the framework), the commands
submitted, whether the event was handled, and whether a warning diagnostic
was emitted (the proxy's downcast failure branch emits none). -/
structure ProxyStep (t : Ty) where
  state : ProxyState
  data : t.interp
  submitted : List Cmd
  handled : Bool
  warned : Bool

/-- `SubWindowProxy::event` (proxy.rs lines 103-130).  `child` is the effect
of dispatching the event to the wrapped subtree on the shared data. -/
def SubWindowProxy.event (t : Ty) (p : ProxyState) (data : t.interp)
    (child : t.interp → t.interp × List Cmd) (ev : Event) : ProxyStep t :=
  match ev with
  | .command (.connectHost host_id _) =>
    ⟨{ p with sub_window_hosts := p.sub_window_hosts ++ [host_id] },
      data, [], true, false⟩
  | .command (.disconnectHost host_id _) =>
    ⟨{ p with sub_window_hosts := p.sub_window_hosts.filter (fun id => id ≠ host_id) },
      data, [], true, false⟩
  | .command (.hostToProxy box _) =>
    match box.downcast t with
    | some v => ⟨p, v, [], true, false⟩
    | none => ⟨p, data, [], true, false⟩
  | _ =>
    let r := child data
    ⟨p, r.1, r.2, false, false⟩

/-- `SubWindowProxy::update` (proxy.rs lines 136-144): when the data or the
env changed, submit one host update per currently-connected host. -/
def SubWindowProxy.update (t : Ty) (p : ProxyState) (old new : t.interp)
    (env : Nat) (env_changed : Bool) : List Cmd :=
  let data_changed : Bool := decide (¬ old = new)
  if env_changed || data_changed then
    p.sub_window_hosts.map fun host_id =>
      submit_host_update t new data_changed env env_changed host_id
  else []

/-- `Dialog<T>` state (dialog.rs): manager id, own (proxy) id, the tracked
window's host id when one is open, presence of the external event sink, and
the window configuration (builder omitted: it only produces the widget
tree). -/
structure DialogState where
  manager : WidgetId
  id : WidgetId
  sub_window_host : Option WidgetId
  sink : Option Unit
  position : StackChildPosition
  modal : Bool
deriving DecidableEq

/-- `Dialog::drop` (dialog.rs lines 69-82): when the sink is available and a
window is still tracked, submit `SWM_CLOSE_WINDOW(Some(host_id))` to the
manager; otherwise submit nothing. -/
def Dialog.drop (d : DialogState) : List Cmd :=
  match d.sink with
  | some _ =>
    match d.sub_window_host with
    | some host_id => [ .closeWindow (some (some host_id)) (.widget d.manager) ]
    | none => []
  | none => []

/-- `Dialog::lifecycle` (dialog.rs lines 114-127) on `WidgetAdded`: store the
external sink, build the content and call `add_window`, recording the
created host id.  The source assigns the call's value to `sub_window_host`
even though `add_window` as written in manager.rs returns unit; the evident
intent (and the spec's wording) is that the created host id is recorded, so
`add_window` is modelled as returning it.  `host_id` stands for the fresh
`WidgetId::next()` drawn inside `add_window`. -/
def Dialog.lifecycle (d : DialogState) (widgetAdded : Bool) (host_id : WidgetId) :
    DialogState × List Cmd :=
  if widgetAdded then
    let r := add_window d.manager d.id host_id d.position d.modal
    ({ d with sink := some (), sub_window_host := some r.2 }, r.1)
  else (d, [])

/-- `Dialog::event` (dialog.rs lines 90-112): new dialog state, shared data,
and the handled flag. -/
def Dialog.event (t : Ty) (d : DialogState) (data : t.interp) (ev : Event) :
    DialogState × t.interp × Bool :=
  match ev with
  | .command (.disconnectHost host_id _) =>
    if some host_id = d.sub_window_host then
      ({ d with sub_window_host := none }, data, true)
    else (d, data, false)
  | .command (.hostToProxy box _) =>
    match box.downcast t with
    | some v => (d, v, true)
    | none => (d, data, true)
  | _ => (d, data, false)

/-- `Dialog::update` (dialog.rs lines 129-136): push an update to the single
tracked host when data or env changed. -/
def Dialog.update (t : Ty) (d : DialogState) (old new : t.interp)
    (env : Nat) (env_changed : Bool) : List Cmd :=
  match d.sub_window_host with
  | some host_id =>
    let data_changed : Bool := decide (¬ old = new)
    if env_changed || data_changed then
      [submit_host_update t new data_changed env env_changed host_id]
    else []
  | none => []

/-- Modelled from the spec: `SubWindowConfig` (window_config.rs, not under
src/) — a position, an optional title and a modal flag, immutable once the
window is created. -/
structure SubWindowConfig where
  position : StackChildPosition
  title : Option String
  modal : Bool
deriving DecidableEq

/-- `SubWindowTitlebar` controller state (window_decoration.rs lines
27-38). -/
structure TitlebarState where
  manager : WidgetId
  host_id : WidgetId
  drag : Bool
  drag_pos : Point
deriving DecidableEq

/-- `SubWindowTitlebar::new`. -/
def SubWindowTitlebar.new (manager host_id : WidgetId) : TitlebarState :=
  ⟨manager, host_id, false, ⟨0, 0⟩⟩

/-- `SubWindowTitlebar::event` (window_decoration.rs lines 40-77): mouse-down
starts a drag and records the widget-local position; mouse-up ends it; every
mouse-move while dragging submits `SWM_DRAG_WINDOW` with the absolute target
point `window_pos - drag_pos`.  The forwarding to the wrapped child is
external. -/
def SubWindowTitlebar.event (tb : TitlebarState) (ev : Event) :
    TitlebarState × List Cmd :=
  match ev with
  | .mouseDown pos _ => ({ tb with drag := true, drag_pos := pos }, [])
  | .mouseUp _ _ => ({ tb with drag := false }, [])
  | .mouseMove _ windowPos =>
    if tb.drag then
      let move_to : Point := ⟨windowPos.x - tb.drag_pos.x, windowPos.y - tb.drag_pos.y⟩
      (tb, [ .dragWindow (some (tb.host_id, move_to)) tb.manager ])
    else (tb, [])
  | _ => (tb, [])

/-- `SubWindow` decoration state (window_decoration.rs lines 79-91): the
titlebar exists exactly when the configuration carries a title; the body and
the layout prototype are external to the protocol. -/
structure SubWindowState where
  titlebar : Option TitlebarState
  manager : WidgetId
  host_id : WidgetId
  border_width : Int
deriving DecidableEq

/-- `SubWindow::new` (window_decoration.rs lines 93-142): a titlebar and a
border of width 1 exist when `config.title` is present, otherwise neither. -/
def SubWindow.new (config : SubWindowConfig) (manager host_id : WidgetId) :
    SubWindowState :=
  match config.title with
  | some _ => ⟨some (SubWindowTitlebar.new manager host_id), manager, host_id, 1⟩
  | none => ⟨none, manager, host_id, 0⟩

/-- The close button's click action (window_decoration.rs lines 111-116): a
bubbled `SWM_CLOSE_WINDOW` notification with an empty id to `Target::Auto`. -/
def SubWindow.close_button_click : Cmd :=
  .closeWindow (some none) .auto

/-- `SubWindow::event` (window_decoration.rs lines 146-157): only when the
titlebar exists, a mouse-down submits `SWM_WINDOW_TO_TOP(own host id)` to
the manager and the titlebar controller sees the event; the body dispatch is
external. -/
def SubWindow.event (w : SubWindowState) (ev : Event) :
    SubWindowState × List Cmd :=
  match w.titlebar with
  | some tb =>
    let raise : List Cmd :=
      match ev with
      | .mouseDown _ _ => [ .windowToTop w.host_id w.manager ]
      | _ => []
    let r := SubWindowTitlebar.event tb ev
    ({ w with titlebar := some r.1 }, raise ++ r.2)
  | none => (w, [])

/-- Bubbling of a `SWM_CLOSE_WINDOW` notification through the chain of
enclosing hosts (innermost first), threading the shared single-use cell:
each host is consulted in turn until one marks the event handled.  Hosts
reached on the way dispatch with an inert child (the notification originates
below them). -/
def bubbleClose (t : Ty) (hosts : List (HostState t))
    (cell : Option (Option WidgetId)) : List Cmd × Bool :=
  match hosts with
  | [] => ([], false)
  | h :: rest =>
    let step := SubWindowHost.event t h (fun d => (d, []))
      (.notification (.closeWindow cell .auto))
    if step.handled then (step.submitted, true)
    else
      let cellAfter : Option (Option WidgetId) :=
        match step.eventAfter with
        | .notification (.closeWindow c _) => c
        | _ => none
      let r := bubbleClose t rest cellAfter
      (step.submitted ++ r.1, r.2)

/-- Delivery of one command to a list of host states: the hosts whose id is
the command's target process it (with an inert child), the others do not see
it. -/
def deliverToHosts (t : Ty) (hs : List (HostState t)) (c : Cmd) :
    List (HostState t) :=
  match c with
  | .proxyToHost upd tgt =>
    hs.map fun h =>
      if h.id = tgt then
        (SubWindowHost.event t h (fun d => (d, [])) (.command (.proxyToHost upd tgt))).state
      else h
  | _ => hs

/-- One proxy data-push cycle: the commands emitted by
`SubWindowProxy::update` are delivered, in order, to the host states. -/
def proxyPushCycle (t : Ty) (p : ProxyState) (old new : t.interp)
    (env : Nat) (env_changed : Bool) (hs : List (HostState t)) :
    List (HostState t) :=
  (SubWindowProxy.update t p old new env env_changed).foldl (deliverToHosts t) hs

/-- Recognizer for the bubbled `SWM_CLOSE_WINDOW` notification shape, one of
the two protocol shapes `SubWindowHost::event` intercepts. -/
def Event.isCloseNotify : Event → Bool
  | .notification (.closeWindow _ _) => true
  | _ => false

/-- Recognizer for the `SWM_PROXY_TO_HOST` command shape, the other protocol
shape `SubWindowHost::event` intercepts. -/
def Event.isProxyToHostCmd : Event → Bool
  | .command (.proxyToHost _ _) => true
  | _ => false

/-!  Theorems.  -/

theorem AnyBox.downcast_self (t : Ty) (x : t.interp) :
    AnyBox.downcast ⟨t, x⟩ t = some x := by
  simp [AnyBox.downcast]

theorem AnyBox.downcast_ne (s t : Ty) (x : s.interp) (h : s ≠ t) :
    AnyBox.downcast ⟨s, x⟩ t = none := by
  simp [AnyBox.downcast, h]

/-- Claim C10: a host consumes every bubbled `SWM_CLOSE_WINDOW` notification
whose single-use payload is still present, whatever id the payload carries:
the step is one and the same for every carried value `v` — the payload is
taken (the cell is empty afterwards), the host substitutes its own id in the
synthesized `SWM_CLOSE_WINDOW(Some(own id))` to the manager, sends
`SWM_DISCONNECT_HOST(own id)` to its owning proxy, and marks the event
handled; the carried id is never forwarded. -/
theorem claim_C10_host_takes_any_close_payload (t : Ty) (h : HostState t)
    (child : t.interp → t.interp × List Cmd) (v : Option WidgetId) (tgt : Target) :
    SubWindowHost.event t h child (.notification (.closeWindow (some v) tgt)) =
      ⟨h, .notification (.closeWindow none tgt),
        [ .closeWindow (some (some h.id)) (.widget h.manager),
          .disconnectHost h.id h.proxy_id ], true, false⟩ :=
  rfl

/-- Claim C7 counterexample: a sub-window configured without a title has no
decoration titlebar, and a mouse-down delivered to its decoration issues no
command at all — in particular no `SWM_WINDOW_TO_TOP`.  This falsifies the
claim that every window, whatever its configuration, issues a raise command
on mouse-down. -/
theorem claim_C7_counterexample :
    (SubWindow.event
        (SubWindow.new ⟨StackChildPosition.new, none, false⟩ 1 2)
        (.mouseDown ⟨3, 4⟩ ⟨3, 4⟩)).2 = [] :=
  rfl

/-- Claim C7 (amended): for every mouse-down delivered to the decoration of
a window whose configuration carries a title (so the titlebar exists), a
`SWM_WINDOW_TO_TOP` command with the window's own host id, addressed to the
manager, is issued. -/
theorem claim_C7_raise_on_mouse_down (config : SubWindowConfig) (s : String)
    (ht : config.title = some s) (manager host_id : WidgetId) (pos wpos : Point) :
    (SubWindow.event (SubWindow.new config manager host_id)
        (.mouseDown pos wpos)).2 = [ .windowToTop host_id manager ] := by
  simp [SubWindow.new, ht, SubWindow.event, SubWindowTitlebar.event]

/-- Claim C7 witness: the amended theorem applied at a concrete titled
configuration. -/
theorem claim_C7_raise_on_mouse_down_witness :
    (SubWindow.event
        (SubWindow.new ⟨StackChildPosition.new, some "w", false⟩ 1 2)
        (.mouseDown ⟨3, 4⟩ ⟨3, 4⟩)).2 = [ .windowToTop 2 1 ] :=
  claim_C7_raise_on_mouse_down ⟨StackChildPosition.new, some "w", false⟩ "w"
    rfl 1 2 ⟨3, 4⟩ ⟨3, 4⟩

/-- Claim C8 counterexample: a proxy receiving a `SWM_HOST_TO_PROXY` command
whose boxed clone does not downcast to its shared-data type keeps its prior
data and continues, as claimed — but no warning is logged (the source's
proxy branch has no diagnostic), falsifying the claim that every mismatch at
a Host, Proxy or Manager is logged as a warning. -/
theorem claim_C8_counterexample :
    (SubWindowProxy.event Ty.tNat ⟨0, 1, [10]⟩ 5 (fun d => (d, []))
        (.command (.hostToProxy ⟨Ty.tBool, true⟩ 1))).warned = false ∧
    (SubWindowProxy.event Ty.tNat ⟨0, 1, [10]⟩ 5 (fun d => (d, []))
        (.command (.hostToProxy ⟨Ty.tBool, true⟩ 1))).data = 5 ∧
    (SubWindowProxy.event Ty.tNat ⟨0, 1, [10]⟩ 5 (fun d => (d, []))
        (.command (.hostToProxy ⟨Ty.tBool, true⟩ 1))).handled = true := by
  refine ⟨rfl, rfl, rfl⟩

/-- Claim C8 (amended): a type-mismatched data payload is non-fatal and
atomic for all three receivers — the update is dropped, the receiver keeps
its prior data unchanged, and processing continues (the event is marked
handled, the node is never aborted); the Host logs a warning for a
mismatched `SWM_PROXY_TO_HOST` data clone, while the Proxy and the Manager
drop a mismatched `SWM_HOST_TO_PROXY` clone silently. -/
theorem claim_C8_mismatch_nonfatal (t s : Ty) (hne : s ≠ t) (x : s.interp)
    (h : HostState t) (envPart : Option Nat) (childH : t.interp → t.interp × List Cmd)
    (p : ProxyState) (pd : t.interp) (childP : t.interp → t.interp × List Cmd)
    (m : ManagerState t) (origin : Point) (tgt : WidgetId) :
    (SubWindowHost.event t h childH
        (.command (.proxyToHost ⟨some ⟨s, x⟩, envPart⟩ tgt))).state = h ∧
    (SubWindowHost.event t h childH
        (.command (.proxyToHost ⟨some ⟨s, x⟩, envPart⟩ tgt))).handled = true ∧
    (SubWindowHost.event t h childH
        (.command (.proxyToHost ⟨some ⟨s, x⟩, envPart⟩ tgt))).warned = true ∧
    (SubWindowProxy.event t p pd childP
        (.command (.hostToProxy ⟨s, x⟩ tgt))).data = pd ∧
    (SubWindowProxy.event t p pd childP
        (.command (.hostToProxy ⟨s, x⟩ tgt))).state = p ∧
    (SubWindowProxy.event t p pd childP
        (.command (.hostToProxy ⟨s, x⟩ tgt))).handled = true ∧
    (SubWindowProxy.event t p pd childP
        (.command (.hostToProxy ⟨s, x⟩ tgt))).warned = false ∧
    (SubWindowManager.event t m origin
        (.command (.hostToProxy ⟨s, x⟩ tgt))).state = m ∧
    (SubWindowManager.event t m origin
        (.command (.hostToProxy ⟨s, x⟩ tgt))).handled = true := by
  have hd := AnyBox.downcast_ne s t x hne
  refine ⟨?_, ?_, ?_, ?_, ?_, ?_, ?_, ?_, ?_⟩ <;>
    simp [SubWindowHost.event, SubWindowProxy.event, SubWindowManager.event, hd]

/-- Claim C8 witness: the amended theorem applied at a concrete mismatch, a
boolean clone arriving at receivers whose data type is a natural number. -/
theorem claim_C8_mismatch_nonfatal_witness :
    (SubWindowHost.event Ty.tNat ⟨0, 2, 1, 7⟩ (fun d => (d, []))
        (.command (.proxyToHost ⟨some ⟨Ty.tBool, true⟩, none⟩ 1))).state = ⟨0, 2, 1, 7⟩ ∧
    (SubWindowHost.event Ty.tNat ⟨0, 2, 1, 7⟩ (fun d => (d, []))
        (.command (.proxyToHost ⟨some ⟨Ty.tBool, true⟩, none⟩ 1))).handled = true ∧
    (SubWindowHost.event Ty.tNat ⟨0, 2, 1, 7⟩ (fun d => (d, []))
        (.command (.proxyToHost ⟨some ⟨Ty.tBool, true⟩, none⟩ 1))).warned = true ∧
    (SubWindowProxy.event Ty.tNat ⟨0, 1, [10]⟩ 5 (fun d => (d, []))
        (.command (.hostToProxy ⟨Ty.tBool, true⟩ 1))).data = 5 ∧
    (SubWindowProxy.event Ty.tNat ⟨0, 1, [10]⟩ 5 (fun d => (d, []))
        (.command (.hostToProxy ⟨Ty.tBool, true⟩ 1))).state = ⟨0, 1, [10]⟩ ∧
    (SubWindowProxy.event Ty.tNat ⟨0, 1, [10]⟩ 5 (fun d => (d, []))
        (.command (.hostToProxy ⟨Ty.tBool, true⟩ 1))).handled = true ∧
    (SubWindowProxy.event Ty.tNat ⟨0, 1, [10]⟩ 5 (fun d => (d, []))
        (.command (.hostToProxy ⟨Ty.tBool, true⟩ 1))).warned = false ∧
    (SubWindowManager.event Ty.tNat ⟨0, 3, [], 5⟩ ⟨0, 0⟩
        (.command (.hostToProxy ⟨Ty.tBool, true⟩ 1))).state = ⟨0, 3, [], 5⟩ ∧
    (SubWindowManager.event Ty.tNat ⟨0, 3, [], 5⟩ ⟨0, 0⟩
        (.command (.hostToProxy ⟨Ty.tBool, true⟩ 1))).handled = true :=
  claim_C8_mismatch_nonfatal Ty.tNat Ty.tBool (by decide) true
    ⟨0, 2, 1, 7⟩ none (fun d => (d, []))
    ⟨0, 1, [10]⟩ 5 (fun d => (d, []))
    ⟨0, 3, [], 5⟩ ⟨0, 0⟩ 1

theorem Stack.move_child_map_widget (stack : List StackEntry) (id : WidgetId)
    (pos : StackChildPosition) :
    (Stack.move_child stack id pos).map StackEntry.widget
      = stack.map StackEntry.widget := by
  unfold Stack.move_child
  induction stack with
  | nil => rfl
  | cons e es ih =>
    simp only [List.map_cons, ih]
    by_cases h : e.widget = id <;> simp [h]

/-- Claim C9: a `SWM_DRAG_WINDOW` command whose payload `(id, absolute
point)` is successfully taken makes the manager convert the absolute point
into the stack's local coordinates by subtracting the stack's screen-space
origin and update the matching entry's position in place, leaving the
z-order (the sequence of widget ids) unchanged and consuming the payload; in
particular, in the concrete drag scenario, the titlebar drag controller of
the window at fixed position (left=100, top=100) dragged by delta (10,-5)
emits the absolute point (110,95) and the entry's position becomes
(left=110, top=95) with the stack order unchanged. -/
theorem claim_C9_move_window (t : Ty) (m : ManagerState t) (origin : Point)
    (host_id : WidgetId) (pt : Point) (tgt : WidgetId) :
    (SubWindowManager.event t m origin
        (.command (.dragWindow (some (host_id, pt)) tgt))).state.stack
      = Stack.move_child m.stack host_id
          ⟨some (pt.x - origin.x), some (pt.y - origin.y), none, none⟩ ∧
    (SubWindowManager.event t m origin
        (.command (.dragWindow (some (host_id, pt)) tgt))).state.stack.map StackEntry.widget
      = m.stack.map StackEntry.widget ∧
    (SubWindowManager.event t m origin
        (.command (.dragWindow (some (host_id, pt)) tgt))).handled = true ∧
    (SubWindowManager.event t m origin
        (.command (.dragWindow (some (host_id, pt)) tgt))).eventAfter
      = .command (.dragWindow none tgt) ∧
    (SubWindowTitlebar.event
        (SubWindowTitlebar.event (SubWindowTitlebar.new 0 5)
          (.mouseDown ⟨30, 5⟩ ⟨130, 105⟩)).1
        (.mouseMove ⟨40, 0⟩ ⟨140, 100⟩)).2
      = [ .dragWindow (some (5, ⟨110, 95⟩)) 0 ] ∧
    (SubWindowManager.event Ty.tNat
        ⟨0, 9, [⟨9, StackChildPosition.new, false⟩,
                ⟨5, ⟨some 100, some 100, none, none⟩, false⟩], 0⟩
        ⟨0, 0⟩ (.command (.dragWindow (some (5, ⟨110, 95⟩)) 0))).state.stack
      = [⟨9, StackChildPosition.new, false⟩,
         ⟨5, ⟨some 110, some 95, none, none⟩, false⟩] := by
  refine ⟨rfl, Stack.move_child_map_widget m.stack host_id _, rfl, rfl, ?_, ?_⟩
  · decide
  · decide

theorem Stack.child_to_front_split (l1 l2 : List StackEntry) (id : WidgetId)
    (h1 : ∀ e ∈ l1, e.widget ≠ id) (h2 : ∀ e ∈ l2, e.widget = id) :
    Stack.child_to_front (l1 ++ l2) id = l1 ++ l2 := by
  have e1 : List.filter (fun e => decide (e.widget ≠ id)) l1 = l1 :=
    List.filter_eq_self.mpr (by intro e he; simpa using h1 e he)
  have e2 : List.filter (fun e => decide (e.widget ≠ id)) l2 = [] :=
    List.filter_eq_nil_iff.mpr (by intro e he; simpa using h2 e he)
  have e3 : List.filter (fun e => decide (e.widget = id)) l1 = [] :=
    List.filter_eq_nil_iff.mpr (by intro e he; simpa using h1 e he)
  have e4 : List.filter (fun e => decide (e.widget = id)) l2 = l2 :=
    List.filter_eq_self.mpr (by intro e he; simpa using h2 e he)
  unfold Stack.child_to_front
  rw [List.filter_append, List.filter_append, e1, e2, e3, e4]
  simp

theorem Stack.child_to_front_idem (s : List StackEntry) (id : WidgetId) :
    Stack.child_to_front (Stack.child_to_front s id) id
      = Stack.child_to_front s id :=
  Stack.child_to_front_split _ _ id
    (by intro e he; exact of_decide_eq_true (List.mem_filter.mp he).2)
    (by intro e he; exact of_decide_eq_true (List.mem_filter.mp he).2)

/-- Claim C3: creating windows A then B then C appends each new entry at the
end of the manager's sequence (the front of the z-order), giving stack order
A, B, C with C frontmost; a subsequent `SWM_WINDOW_TO_TOP(A)` moves A's
entry to the end, giving B, C, A with the relative order of the others
preserved; and the raise is idempotent — raising the already-frontmost A
again leaves the stack unchanged, and moving-to-front twice always equals
moving-to-front once. -/
theorem claim_C3_zorder_create_raise (t : Ty) (m : ManagerState t)
    (origin : Point) (a b c : WidgetId) (pa pb pc : StackChildPosition)
    (ma mb mc : Bool) (tgt : WidgetId) (mid rid : WidgetId) (d : t.interp)
    (hm : ∀ e ∈ m.stack, e.widget ≠ a) (hba : b ≠ a) (hca : c ≠ a) :
    (SubWindowManager.event t
        (SubWindowManager.event t
            (SubWindowManager.event t m origin
              (.command (.addWindow (some ⟨a, pa, ma⟩) tgt))).state origin
            (.command (.addWindow (some ⟨b, pb, mb⟩) tgt))).state origin
        (.command (.addWindow (some ⟨c, pc, mc⟩) tgt))).state.stack
      = m.stack ++ [⟨a, pa, ma⟩, ⟨b, pb, mb⟩, ⟨c, pc, mc⟩] ∧
    (SubWindowManager.event t
        ⟨mid, rid,
          m.stack ++ [⟨a, pa, ma⟩, ⟨b, pb, mb⟩, ⟨c, pc, mc⟩], d⟩ origin
        (.command (.windowToTop a tgt))).state.stack
      = m.stack ++ [⟨b, pb, mb⟩, ⟨c, pc, mc⟩, ⟨a, pa, ma⟩] ∧
    Stack.child_to_front (m.stack ++ [⟨b, pb, mb⟩, ⟨c, pc, mc⟩, ⟨a, pa, ma⟩]) a
      = m.stack ++ [⟨b, pb, mb⟩, ⟨c, pc, mc⟩, ⟨a, pa, ma⟩] ∧
    (∀ (s : List StackEntry) (id : WidgetId),
      Stack.child_to_front (Stack.child_to_front s id) id
        = Stack.child_to_front s id) := by
  have stack3 :
      (SubWindowManager.event t
          (SubWindowManager.event t
              (SubWindowManager.event t m origin
                (.command (.addWindow (some ⟨a, pa, ma⟩) tgt))).state origin
              (.command (.addWindow (some ⟨b, pb, mb⟩) tgt))).state origin
          (.command (.addWindow (some ⟨c, pc, mc⟩) tgt))).state.stack
        = m.stack ++ [⟨a, pa, ma⟩, ⟨b, pb, mb⟩, ⟨c, pc, mc⟩] := by
    show ((m.stack ++ [⟨a, pa, ma⟩]) ++ [⟨b, pb, mb⟩]) ++ [⟨c, pc, mc⟩]
        = m.stack ++ [⟨a, pa, ma⟩, ⟨b, pb, mb⟩, ⟨c, pc, mc⟩]
    simp
  refine ⟨stack3, ?_, ?_, Stack.child_to_front_idem⟩
  · show Stack.child_to_front
        (m.stack ++ [⟨a, pa, ma⟩, ⟨b, pb, mb⟩, ⟨c, pc, mc⟩]) a
        = m.stack ++ [⟨b, pb, mb⟩, ⟨c, pc, mc⟩, ⟨a, pa, ma⟩]
    have f1 : List.filter (fun e => decide (e.widget ≠ a)) m.stack = m.stack :=
      List.filter_eq_self.mpr (by intro e he; simpa using hm e he)
    have f2 : List.filter (fun e => decide (e.widget = a)) m.stack = [] :=
      List.filter_eq_nil_iff.mpr (by intro e he; simpa using hm e he)
    unfold Stack.child_to_front
    rw [List.filter_append, List.filter_append, f1, f2]
    simp [hba, hca]
  · have hsplit := Stack.child_to_front_split
      (m.stack ++ [⟨b, pb, mb⟩, ⟨c, pc, mc⟩]) [⟨a, pa, ma⟩] a
      (by
        intro e he
        rcases List.mem_append.mp he with h | h
        · exact hm e h
        · rcases List.mem_cons.mp h with rfl | h
          · exact hba
          · obtain rfl := List.mem_singleton.mp h
            exact hca)
      (by
        intro e he
        obtain rfl := List.mem_singleton.mp he
        rfl)
    have heq : (m.stack ++ [(⟨b, pb, mb⟩ : StackEntry), ⟨c, pc, mc⟩]) ++ [⟨a, pa, ma⟩]
        = m.stack ++ [⟨b, pb, mb⟩, ⟨c, pc, mc⟩, ⟨a, pa, ma⟩] := by simp
    rw [← heq]
    exact hsplit

/-- Claim C3 witness: the theorem applied over a root entry with windows 1,
2, 3; raising window 1 yields root, 2, 3, 1. -/
theorem claim_C3_zorder_create_raise_witness :
    (SubWindowManager.event Ty.tNat
        ⟨0, 9,
          [⟨9, StackChildPosition.new, false⟩] ++
            [⟨1, StackChildPosition.new, false⟩,
             ⟨2, StackChildPosition.new, false⟩,
             ⟨3, StackChildPosition.new, false⟩], 0⟩ ⟨0, 0⟩
        (.command (.windowToTop 1 0))).state.stack
      = [⟨9, StackChildPosition.new, false⟩] ++
        [⟨2, StackChildPosition.new, false⟩,
         ⟨3, StackChildPosition.new, false⟩,
         ⟨1, StackChildPosition.new, false⟩] :=
  (claim_C3_zorder_create_raise Ty.tNat
      ⟨0, 9, [⟨9, StackChildPosition.new, false⟩], 0⟩ ⟨0, 0⟩ 1 2 3
      StackChildPosition.new StackChildPosition.new StackChildPosition.new
      false false false 0 0 9 0
      (by decide) (by decide) (by decide)).2.1

/-- Claim C4: single-use exactly-once consumption.  For each of the
`SWM_ADD_WINDOW`, `SWM_DRAG_WINDOW` and `SWM_CLOSE_WINDOW` payloads, the
first delivery to a manager takes the payload (the threaded cell is empty
afterwards) and applies exactly one stack mutation; any handler that then
observes the already-taken payload — a second manager, or a host seeing an
emptied bubbled close notification — is left completely unchanged: no entry
added, moved or removed, no command submitted.  Delivering to two candidate
handlers in either order therefore mutates state exactly once, whichever
handler comes first being the one that acts. -/
theorem claim_C4_single_use_exactly_once (t : Ty) (origin : Point)
    (m1 m2 : ManagerState t) (desc : SwmSubWindowDesc)
    (host_id : WidgetId) (pt : Point) (tgt : WidgetId) (tgt2 : Target)
    (h : HostState t) :
    (SubWindowManager.event t m1 origin
        (.command (.addWindow (some desc) tgt))).state.stack
      = m1.stack ++ [⟨desc.sub_window_root, desc.position, desc.modal⟩] ∧
    (SubWindowManager.event t m1 origin
        (.command (.addWindow (some desc) tgt))).eventAfter
      = .command (.addWindow none tgt) ∧
    (SubWindowManager.event t m2 origin
        (.command (.addWindow none tgt))).state = m2 ∧
    (SubWindowManager.event t m2 origin
        (.command (.addWindow none tgt))).handled = false ∧
    (SubWindowManager.event t m1 origin
        (.command (.dragWindow (some (host_id, pt)) tgt))).state.stack
      = Stack.move_child m1.stack host_id
          ⟨some (pt.x - origin.x), some (pt.y - origin.y), none, none⟩ ∧
    (SubWindowManager.event t m1 origin
        (.command (.dragWindow (some (host_id, pt)) tgt))).eventAfter
      = .command (.dragWindow none tgt) ∧
    (SubWindowManager.event t m2 origin
        (.command (.dragWindow none tgt))).state = m2 ∧
    (SubWindowManager.event t m2 origin
        (.command (.dragWindow none tgt))).handled = false ∧
    (SubWindowManager.event t m1 origin
        (.command (.closeWindow (some (some host_id)) tgt2))).state.stack
      = Stack.remove_child m1.stack host_id ∧
    (SubWindowManager.event t m1 origin
        (.command (.closeWindow (some (some host_id)) tgt2))).eventAfter
      = .command (.closeWindow none tgt2) ∧
    (SubWindowManager.event t m2 origin
        (.command (.closeWindow none tgt2))).state = m2 ∧
    (SubWindowManager.event t m2 origin
        (.command (.closeWindow none tgt2))).handled = false ∧
    (SubWindowHost.event t h (fun d => (d, []))
        (.notification (.closeWindow none tgt2))).state = h ∧
    (SubWindowHost.event t h (fun d => (d, []))
        (.notification (.closeWindow none tgt2))).submitted = [] ∧
    (SubWindowHost.event t h (fun d => (d, []))
        (.notification (.closeWindow none tgt2))).handled = false := by
  refine ⟨rfl, rfl, rfl, rfl, rfl, rfl, rfl, rfl, rfl, rfl, rfl, rfl, rfl, ?_, rfl⟩
  simp [SubWindowHost.event]

/-- Claim C1: a bubbled `SWM_CLOSE_WINDOW` notification whose single-use
payload is still available is resolved by the nearest enclosing host: that
host submits `SWM_CLOSE_WINDOW(Some(own id))` to the manager and
`SWM_DISCONNECT_HOST(own id)` to its owning proxy, and marks the event
handled so it does not reach any further ancestor (the bubble result is the
two commands of the first host alone, whatever hosts lie above); the manager
then removes exactly the entry of that window from the stack — every other
entry, ancestors and root included, survives in order. -/
theorem claim_C1_bubbled_close_removes_exactly_w (t : Ty) (h : HostState t)
    (rest : List (HostState t)) (v : Option WidgetId) (m : ManagerState t)
    (origin : Point) (pre post : List StackEntry) (e : StackEntry)
    (hstack : m.stack = pre ++ e :: post) (hw : e.widget = h.id)
    (hpre : ∀ x ∈ pre, x.widget ≠ h.id)
    (hpost : ∀ x ∈ post, x.widget ≠ h.id) :
    (bubbleClose t (h :: rest) (some v)).1
      = [ .closeWindow (some (some h.id)) (.widget h.manager),
          .disconnectHost h.id h.proxy_id ] ∧
    (bubbleClose t (h :: rest) (some v)).2 = true ∧
    (SubWindowManager.event t m origin
        (.command (.closeWindow (some (some h.id)) (.widget h.manager)))).state.stack
      = pre ++ post ∧
    (SubWindowManager.event t m origin
        (.command (.closeWindow (some (some h.id)) (.widget h.manager)))).handled
      = true := by
  have f1 : List.filter (fun x => decide (x.widget ≠ h.id)) pre = pre :=
    List.filter_eq_self.mpr (by intro x hx; simpa using hpre x hx)
  have f2 : List.filter (fun x => decide (x.widget ≠ h.id)) post = post :=
    List.filter_eq_self.mpr (by intro x hx; simpa using hpost x hx)
  refine ⟨rfl, rfl, ?_, rfl⟩
  show Stack.remove_child m.stack h.id = pre ++ post
  rw [hstack]
  unfold Stack.remove_child
  rw [List.filter_append, f1, List.filter_cons]
  simp [hw]
  intro a ha
  exact hpost a ha

/-- Claim C1 witness: a stack holding the root entry 9 and window 5; window
5's host resolves the bubbled close and only entry 5 is removed. -/
theorem claim_C1_bubbled_close_removes_exactly_w_witness :
    (bubbleClose Ty.tNat [⟨0, 5, 7, 0⟩] (some none)).1
      = [ .closeWindow (some (some 5)) (.widget 0), .disconnectHost 5 7 ] ∧
    (bubbleClose Ty.tNat [⟨0, 5, 7, 0⟩] (some none)).2 = true ∧
    (SubWindowManager.event Ty.tNat
        ⟨0, 9, [⟨9, StackChildPosition.new, false⟩,
                ⟨5, StackChildPosition.new, false⟩], 0⟩ ⟨0, 0⟩
        (.command (.closeWindow (some (some 5)) (.widget 0)))).state.stack
      = [⟨9, StackChildPosition.new, false⟩] ++ [] ∧
    (SubWindowManager.event Ty.tNat
        ⟨0, 9, [⟨9, StackChildPosition.new, false⟩,
                ⟨5, StackChildPosition.new, false⟩], 0⟩ ⟨0, 0⟩
        (.command (.closeWindow (some (some 5)) (.widget 0)))).handled = true :=
  claim_C1_bubbled_close_removes_exactly_w Ty.tNat ⟨0, 5, 7, 0⟩ [] none
    ⟨0, 9, [⟨9, StackChildPosition.new, false⟩,
            ⟨5, StackChildPosition.new, false⟩], 0⟩ ⟨0, 0⟩
    [⟨9, StackChildPosition.new, false⟩] [] ⟨5, StackChildPosition.new, false⟩
    rfl rfl (by decide) (by decide)

/-- Claim C6: scoped cleanup.  A dialog that went through `WidgetAdded` holds
the external sink and tracks the created window's host id; destroying it in
that state emits exactly `SWM_CLOSE_WINDOW(Some(that id))` addressed to the
manager, and the manager's close handler removes the corresponding stack
entry; after a `SWM_DISCONNECT_HOST` for that id (the window closed on its
own), the dialog tracks no window and its destruction emits no command at
all. -/
theorem claim_C6_dialog_scoped_cleanup (t : Ty) (d : DialogState)
    (host_id : WidgetId) (m : ManagerState t) (origin : Point)
    (data : t.interp) (tgt : WidgetId) :
    (Dialog.lifecycle d true host_id).1.sub_window_host = some host_id ∧
    (Dialog.lifecycle d true host_id).1.sink = some () ∧
    Dialog.drop (Dialog.lifecycle d true host_id).1
      = [ .closeWindow (some (some host_id)) (.widget d.manager) ] ∧
    (SubWindowManager.event t m origin
        (.command (.closeWindow (some (some host_id)) (.widget d.manager)))).state.stack
      = Stack.remove_child m.stack host_id ∧
    (SubWindowManager.event t m origin
        (.command (.closeWindow (some (some host_id)) (.widget d.manager)))).handled
      = true ∧
    (Dialog.event t (Dialog.lifecycle d true host_id).1 data
        (.command (.disconnectHost host_id tgt))).1.sub_window_host = none ∧
    Dialog.drop (Dialog.event t (Dialog.lifecycle d true host_id).1 data
        (.command (.disconnectHost host_id tgt))).1 = [] := by
  have hdis : (Dialog.event t (Dialog.lifecycle d true host_id).1 data
      (.command (.disconnectHost host_id tgt))).1
      = { (Dialog.lifecycle d true host_id).1 with sub_window_host := none } := by
    simp [Dialog.event, Dialog.lifecycle, add_window]
  refine ⟨rfl, rfl, rfl, rfl, rfl, ?_, ?_⟩
  · rw [hdis]
  · rw [hdis]
    simp only [Dialog.drop]
    split <;> rfl

/-- Claim C5: on every ordinary (non-protocol) event the host first
dispatches to its wrapped subtree with the private data, then compares the
data before and after by value, and submits `SWM_HOST_TO_PROXY` with a clone
of the new value, addressed to its owning proxy, if and only if the value
changed; when it is submitted it comes strictly after all commands the child
subtree itself submitted (it is the final element of the submission list). -/
theorem claim_C5_host_ordinary_event (t : Ty) (h : HostState t)
    (child : t.interp → t.interp × List Cmd) (ev : Event)
    (h1 : ev.isCloseNotify = false) (h2 : ev.isProxyToHostCmd = false) :
    (SubWindowHost.event t h child ev).state.data = (child h.data).1 ∧
    (SubWindowHost.event t h child ev).submitted
      = (child h.data).2 ++
        (if h.data = (child h.data).1 then []
         else [ .hostToProxy ⟨t, (child h.data).1⟩ h.proxy_id ]) ∧
    (h.data = (child h.data).1 →
      (SubWindowHost.event t h child ev).submitted = (child h.data).2) ∧
    (¬ h.data = (child h.data).1 →
      (SubWindowHost.event t h child ev).submitted
        = (child h.data).2 ++ [ .hostToProxy ⟨t, (child h.data).1⟩ h.proxy_id ]) := by
  have key : SubWindowHost.event t h child ev
      = ⟨{ h with data := (child h.data).1 }, ev,
          (child h.data).2 ++
            (if h.data = (child h.data).1 then []
             else [ .hostToProxy ⟨t, (child h.data).1⟩ h.proxy_id ]),
          false, false⟩ := by
    cases ev with
    | command c =>
      cases c with
      | proxyToHost upd tgt => simp [Event.isProxyToHostCmd] at h2
      | addWindow cell tgt => rfl
      | dragWindow cell tgt => rfl
      | closeWindow cell tgt => rfl
      | windowToTop id tgt => rfl
      | hostToProxy box tgt => rfl
      | connectHost id tgt => rfl
      | disconnectHost id tgt => rfl
    | notification c =>
      cases c with
      | closeWindow cell tgt => simp [Event.isCloseNotify] at h1
      | addWindow cell tgt => rfl
      | dragWindow cell tgt => rfl
      | windowToTop id tgt => rfl
      | hostToProxy box tgt => rfl
      | proxyToHost upd tgt => rfl
      | connectHost id tgt => rfl
      | disconnectHost id tgt => rfl
    | mouseDown p w => rfl
    | mouseUp p w => rfl
    | mouseMove p w => rfl
    | other => rfl
  refine ⟨by rw [key], by rw [key], ?_, ?_⟩
  · intro hc
    rw [key]
    show (child h.data).2 ++
        (if h.data = (child h.data).1 then []
         else [ .hostToProxy ⟨t, (child h.data).1⟩ h.proxy_id ])
      = (child h.data).2
    rw [if_pos hc, List.append_nil]
  · intro hc
    rw [key]
    show (child h.data).2 ++
        (if h.data = (child h.data).1 then []
         else [ .hostToProxy ⟨t, (child h.data).1⟩ h.proxy_id ])
      = (child h.data).2 ++ [ .hostToProxy ⟨t, (child h.data).1⟩ h.proxy_id ]
    rw [if_neg hc]

/-- Claim C5 witness: the theorem applied to a host with data 0 and a child
that mutates the data to 1 while submitting nothing: the host's data becomes
1 and exactly the push to proxy 7 is submitted. -/
theorem claim_C5_host_ordinary_event_witness :
    (SubWindowHost.event Ty.tNat ⟨0, 5, 7, 0⟩ (fun d => (d + 1, [])) .other).state.data
      = 1 ∧
    (SubWindowHost.event Ty.tNat ⟨0, 5, 7, 0⟩ (fun d => (d + 1, [])) .other).submitted
      = [ .hostToProxy ⟨Ty.tNat, 1⟩ 7 ] :=
  ⟨(claim_C5_host_ordinary_event Ty.tNat ⟨0, 5, 7, 0⟩
      (fun d => (d + 1, [])) .other rfl rfl).1,
   (claim_C5_host_ordinary_event Ty.tNat ⟨0, 5, 7, 0⟩
      (fun d => (d + 1, [])) .other rfl rfl).2.2.2 (by decide)⟩

theorem SubWindowHost.event_push_state (t : Ty) (h : HostState t)
    (v : t.interp) (envOpt : Option Nat) (tgt : WidgetId) :
    (SubWindowHost.event t h (fun d => (d, []))
        (.command (.proxyToHost ⟨some ⟨t, v⟩, envOpt⟩ tgt))).state
      = { h with data := v } := by
  simp [SubWindowHost.event, AnyBox.downcast_self]

theorem foldl_deliver_push (t : Ty) (v : t.interp) (envOpt : Option Nat)
    (ids : List WidgetId) (hs : List (HostState t)) :
    (ids.map fun x => Cmd.proxyToHost ⟨some ⟨t, v⟩, envOpt⟩ x).foldl
        (deliverToHosts t) hs
      = hs.map fun h => if h.id ∈ ids then { h with data := v } else h := by
  induction ids generalizing hs with
  | nil =>
    simp
  | cons x ids ih =>
    rw [List.map_cons, List.foldl_cons, ih]
    have hstep : deliverToHosts t hs (Cmd.proxyToHost ⟨some ⟨t, v⟩, envOpt⟩ x)
        = hs.map fun h => if h.id = x then { h with data := v } else h := by
      unfold deliverToHosts
      refine List.map_congr_left ?_
      intro h _
      by_cases hx : h.id = x
      · rw [if_pos hx, if_pos hx, SubWindowHost.event_push_state]
      · rw [if_neg hx, if_neg hx]
    rw [hstep, List.map_map]
    refine List.map_congr_left ?_
    intro h _
    simp only [Function.comp]
    by_cases hx : h.id = x
    · rw [if_pos hx]
      have hxx : h.id ∈ x :: ids := List.mem_cons.mpr (Or.inl hx)
      by_cases hmem : h.id ∈ ids
      · rw [if_pos (show ({ h with data := v } : HostState t).id ∈ ids from hmem),
          if_pos hxx]
      · rw [if_neg (show ({ h with data := v } : HostState t).id ∈ ids → False from hmem),
          if_pos hxx]
    · rw [if_neg hx]
      by_cases hmem : h.id ∈ ids
      · rw [if_pos hmem, if_pos (List.mem_cons.mpr (Or.inr hmem))]
      · rw [if_neg hmem,
          if_neg (show h.id ∈ x :: ids → False by
            intro hc
            rcases List.mem_cons.mp hc with hcc | hcc
            exacts [hx hcc, hmem hcc])]

theorem proxy_update_push (t : Ty) (p : ProxyState) (old new : t.interp)
    (env : Nat) (envch : Bool) (hne : ¬ old = new) :
    SubWindowProxy.update t p old new env envch
      = p.sub_window_hosts.map fun x =>
          Cmd.proxyToHost ⟨some ⟨t, new⟩, if envch then some env else none⟩ x := by
  unfold SubWindowProxy.update submit_host_update
  simp [hne]

theorem pushCycle_converges (t : Ty) (p : ProxyState) (old new : t.interp)
    (env : Nat) (envch : Bool) (hs : List (HostState t)) (hne : ¬ old = new) :
    ∀ h' ∈ proxyPushCycle t p old new env envch hs,
      h'.id ∈ p.sub_window_hosts → h'.data = new := by
  intro h' hmem hid
  unfold proxyPushCycle at hmem
  rw [proxy_update_push t p old new env envch hne, foldl_deliver_push] at hmem
  obtain ⟨h0, _, rfl⟩ := List.mem_map.mp hmem
  by_cases hin : h0.id ∈ p.sub_window_hosts
  · rw [if_pos hin]
  · rw [if_neg hin] at hid ⊢
    exact absurd hid hin

/-- Claim C2: data round-trip.  When a proxy's data changes from d0 to d1 in
an update cycle, it emits one `SWM_PROXY_TO_HOST` carrying a clone of d1 to
every currently-connected window id, and every receiving host (whose data
type matches the clone) ends up holding a private copy equal to d1;
conversely, when a host's subtree locally mutates the private copy, the host
pushes `SWM_HOST_TO_PROXY` with a clone of the new value after the child
finishes, the owning proxy's data becomes that value on receipt, and the
following push cycle makes every other host connected to that proxy converge
to it too. -/
theorem claim_C2_data_round_trip (t : Ty) (p : ProxyState) (d0 d1 : t.interp)
    (env : Nat) (envch : Bool) (hs : List (HostState t)) (h1 : HostState t)
    (c : t.interp → t.interp × List Cmd) (p2 : ProxyState) (pdata : t.interp)
    (c2 : t.interp → t.interp × List Cmd)
    (hne : ¬ d0 = d1) (hmut : ¬ (c h1.data).1 = h1.data) :
    SubWindowProxy.update t p d0 d1 env envch
      = p.sub_window_hosts.map (fun x =>
          Cmd.proxyToHost ⟨some ⟨t, d1⟩, if envch then some env else none⟩ x) ∧
    (∀ h' ∈ proxyPushCycle t p d0 d1 env envch hs,
      h'.id ∈ p.sub_window_hosts → h'.data = d1) ∧
    (SubWindowHost.event t h1 c .other).state.data = (c h1.data).1 ∧
    (SubWindowHost.event t h1 c .other).submitted
      = (c h1.data).2 ++ [ .hostToProxy ⟨t, (c h1.data).1⟩ h1.proxy_id ] ∧
    (SubWindowProxy.event t p2 pdata c2
        (.command (.hostToProxy ⟨t, (c h1.data).1⟩ h1.proxy_id))).data
      = (c h1.data).1 ∧
    (∀ h' ∈ proxyPushCycle t p2 h1.data (c h1.data).1 env envch hs,
      h'.id ∈ p2.sub_window_hosts → h'.data = (c h1.data).1) := by
  refine ⟨proxy_update_push t p d0 d1 env envch hne,
    pushCycle_converges t p d0 d1 env envch hs hne, rfl, ?_, ?_,
    pushCycle_converges t p2 h1.data (c h1.data).1 env envch hs
      (fun hh => hmut hh.symm)⟩
  · show (c h1.data).2 ++
        (if h1.data = (c h1.data).1 then []
         else [ .hostToProxy ⟨t, (c h1.data).1⟩ h1.proxy_id ])
      = (c h1.data).2 ++ [ .hostToProxy ⟨t, (c h1.data).1⟩ h1.proxy_id ]
    rw [if_neg (fun hh => hmut hh.symm)]
  · simp [SubWindowProxy.event, AnyBox.downcast_self]

/-- Claim C2 witness: the theorem applied to a proxy with connected windows
10 and 11: after the push cycle for the change 0 to 1 both matching hosts
hold 1, and a host-local mutation to 2 reaches the proxy. -/
theorem claim_C2_data_round_trip_witness :
    (∀ h' ∈ proxyPushCycle Ty.tNat ⟨0, 1, [10, 11]⟩ 0 1 0 false
        [⟨0, 10, 1, 5⟩, ⟨0, 11, 1, 5⟩, ⟨0, 12, 1, 5⟩],
      h'.id ∈ [10, 11] → h'.data = 1) ∧
    (SubWindowProxy.event Ty.tNat ⟨0, 1, [10, 11]⟩ 1 (fun d => (d, []))
        (.command (.hostToProxy ⟨Ty.tNat, 2⟩ 1))).data = 2 :=
  ⟨(claim_C2_data_round_trip Ty.tNat ⟨0, 1, [10, 11]⟩ 0 1 0 false
      [⟨0, 10, 1, 5⟩, ⟨0, 11, 1, 5⟩, ⟨0, 12, 1, 5⟩] ⟨0, 10, 1, 1⟩
      (fun d => (d + 1, [])) ⟨0, 1, [10, 11]⟩ 1 (fun d => (d, []))
      (by decide) (by decide)).2.1,
   (claim_C2_data_round_trip Ty.tNat ⟨0, 1, [10, 11]⟩ 0 1 0 false
      [⟨0, 10, 1, 5⟩, ⟨0, 11, 1, 5⟩, ⟨0, 12, 1, 5⟩] ⟨0, 10, 1, 1⟩
      (fun d => (d + 1, [])) ⟨0, 1, [10, 11]⟩ 1 (fun d => (d, []))
      (by decide) (by decide)).2.2.2.2.1⟩

end SWM
